import Mathlib

/-!
Verification of the marlint VS Code extension (language client, workspace
package inspector, and the two language-server variants) against its
specification. The definitions below are a shallow embedding of the
TypeScript sources: JavaScript objects become structures, property lookup
on plain objects becomes an association-list lookup, promise outcomes
become `Except`, and the messages a server sends to the editor become an
explicit list of `ServerEvent`s.
-/

namespace Marlint

/-- Property lookup on a JavaScript object used as a string-keyed map
(the first binding for a key wins, matching object semantics where each
key is bound once). -/
def jsGet {α : Type} : List (String × α) → String → Option α
  | [], _ => none
  | (k, v) :: rest, key => if k = key then some v else jsGet rest key

/-- A JavaScript error value as the sources inspect it: `code` mirrors the
optional `err.code` property (set by filesystem errors), `message` the
optional `err.message` string. -/
structure JsError where
  code : Option String := none
  message : Option String := none
deriving DecidableEq, Repr

/-- The state of the manifest file `<workspaceRoot>/package.json` on disk:
missing, unparsable JSON, failing to read with some error code, or a
well-formed package object. A well-formed manifest carries its
`dependencies` and `devDependencies` sections as association lists; a
section absent from the file is the empty list (the source reads
`pkg.dependencies || \x7b\x7d`). -/
inductive ManifestFile
  | absent
  | malformed
  | ioError (code : String)
  | wellFormed (dependencies devDependencies : List (String × String))
deriving DecidableEq, Repr

/-- The error `load-json-file` raises for unparsable JSON: a JSONError,
which carries no `code` property. -/
def jsonParseError : JsError := { message := some "Unexpected token in JSON" }

/-- `loadJsonFile.sync` on the manifest path: a missing file raises an
error whose `code` is ENOENT, unparsable JSON raises a parse error with no
`code`, another read failure raises an error carrying its code, and a
readable well-formed file parses to the package object. -/
def loadJsonFileSync : ManifestFile → Except JsError (List (String × String) × List (String × String))
  | .absent => .error { code := some "ENOENT" }
  | .malformed => .error jsonParseError
  | .ioError c => .error { code := some c }
  | .wellFormed dependencies devDependencies => .ok (dependencies, devDependencies)

/-- JavaScript truthiness of `deps[name]`: `undefined` and the empty
string are falsy, every other string is truthy. -/
def truthyStr : Option String → Bool
  | none => false
  | some s => s ≠ ""

/-- `Package.isDependency` (extension.ts): reads the manifest on every
call; a missing file (ENOENT) yields `false`, any other load error is
rethrown to the caller, and on a parsed manifest the result is
`Boolean(deps[name] || devDeps[name])`. -/
def isDependency (manifest : ManifestFile) (name : String) : Except JsError Bool :=
  match loadJsonFileSync manifest with
  | .ok (dependencies, devDependencies) =>
      .ok (truthyStr (jsGet dependencies name) || truthyStr (jsGet devDependencies name))
  | .error err =>
      if err.code = some "ENOENT" then .ok false else .error err

/-! Diagnostics data model, shared by both server variants. -/

/-- `DiagnosticSeverity` values the servers emit. -/
inductive DiagnosticSeverity
  | error
  | warning
deriving DecidableEq, Repr

/-- A zero-based position in a document. -/
structure Position where
  line : Int
  character : Int
deriving DecidableEq, Repr

/-- A diagnostic range; the LSP field named `end` (a Lean keyword) is
called `stop` here. -/
structure DiagRange where
  start : Position
  stop : Position
deriving DecidableEq, Repr

/-- A published diagnostic. -/
structure Diagnostic where
  message : String
  severity : DiagnosticSeverity
  code : Option String
  source : String
  range : DiagRange
deriving DecidableEq, Repr

/-- One message of the report the external marlint module returns
(interface `ESLintProblem`); the optional `endLine`, `endColumn` and `fix`
fields are never consumed by this repository and are omitted. `ruleId` is
`none` when the report carries `null` or `undefined` there (the sources
test it with `!= null`). -/
structure ESLintProblem where
  line : Int
  column : Int
  severity : Int
  ruleId : Option String
  message : String
deriving DecidableEq, Repr

/-- A per-file entry of the report (interface `ESLintDocumentReport`);
only its `messages` field is consumed. -/
structure ESLintDocumentReport where
  messages : List ESLintProblem
deriving DecidableEq, Repr

/-- The report returned by `lintText` (interface `ESLintReport`); only
`results[0]` is consumed. -/
structure ESLintReport where
  results : List ESLintDocumentReport
deriving DecidableEq, Repr

/-- The options record passed to `lintText`. -/
structure LintOptions where
  cwd : String := ""
  filename : Option String := none
deriving DecidableEq, Repr

/-- A text document as the servers see it: its URI, its text
(`document.getText()`), and the filesystem path its URI maps to (`none`
models a non-file URI, for which the helpers yield `undefined`). -/
structure TextDocument where
  uri : String
  content : String
  fsPath : Option String
deriving DecidableEq, Repr

/-- A message sent from the server to the editor over the connection. -/
inductive ServerEvent
  | publishDiagnostics (uri : String) (diagnostics : List Diagnostic)
  | showErrorMessage (message : String)
deriving DecidableEq, Repr

/-- The mapping from one report message to the published diagnostic,
written identically in both server variants (part_000 lines 175-196 and
part_001 lines 158-179): the rule id is appended in parentheses to the
message when present, severity 2 maps to Error and anything else to
Warning, `code` is the rule id, `source` is Marlint, and the range is the
single point (line - 1, column - 1). -/
def problemToDiagnostic (problem : ESLintProblem) : Diagnostic :=
  let message :=
    match problem.ruleId with
    | some rid => problem.message ++ " (" ++ rid ++ ")"
    | none => problem.message
  { message := message
    severity := if problem.severity = 2 then .error else .warning
    code := problem.ruleId
    source := "Marlint"
    range :=
      { start := { line := problem.line - 1, character := problem.column - 1 }
        stop := { line := problem.line - 1, character := problem.column - 1 } } }

/-! The document-cache server variant (src/unnamed/part_000): a module
handle per resolved path, a pending resolution per document URI, and a
stored `showWarning` flag. -/

namespace CacheServer

/-- A loaded marlint module as `require(path)` returns it: `lintText` is
`none` when the module does not export that function; when present it
takes the document text and the options record and either returns a
report or throws. -/
structure CacheModule where
  lintText : Option (String → LintOptions → Except JsError ESLintReport)

/-- The settled outcome of the `document2Library[uri]` promise built in
`documents.onDidOpen` (lines 116-134): resolved with a library, resolved
with `null` (the rejection handler of the `Files.resolve` chain returns
`null`), or rejected (the load check threw inside the success handler,
which the handler pair does not catch). -/
inductive LibOutcome
  | lib (library : CacheModule)
  | nullLib
  | rejected (err : JsError)

/-- The mutable state of the document-cache server that the handlers
consult: the stored `showWarning` flag, the process working directory,
the open documents (`documents.all()` and `documents.get`), the settled
per-document library outcomes, and the URIs with a validation still in
flight (promises whose continuation has not yet run). -/
structure ServerState where
  showWarning : Bool
  cwd : String
  openDocs : List TextDocument
  document2Library : List (String × LibOutcome)
  pendingValidations : List String

/-- `validate` (part_000 lines 163-199): build the options from the
working directory and the document path, call `marlint.lintText` (which
throws when the export is missing, when the call itself throws, or when
`report.results` is empty and `results[0].messages` is read off
`undefined`), and publish the mapped diagnostics. -/
def validate (cwd : String) (document : TextDocument) (marlint : CacheModule) :
    Except JsError (List ServerEvent) :=
  let options : LintOptions := { cwd := cwd, filename := document.fsPath }
  match marlint.lintText with
  | none => .error { message := some "marlint.lintText is not a function" }
  | some lint =>
    match lint document.content options with
    | .error e => .error e
    | .ok report =>
      match report.results with
      | [] => .error { message := some "Cannot read messages of undefined" }
      | r :: _ => .ok [.publishDiagnostics document.uri (r.messages.map problemToDiagnostic)]

/-- `validateDocument` (part_000 lines 201-217): a document no longer
open or with no cached resolution resolves silently; a `null` library
returns without publishing; a library runs `validate` inside
`try ... catch \x7b\x7d`, so a throwing lint call is swallowed; a rejected
stored promise rejects the returned promise (no handler is attached). -/
def validateDocument (st : ServerState) (document : TextDocument) :
    Except JsError (List ServerEvent) :=
  if st.openDocs.any (fun d => d.uri == document.uri) then
    match jsGet st.document2Library document.uri with
    | none => .ok []
    | some .nullLib => .ok []
    | some (.rejected err) => .error err
    | some (.lib library) =>
        .ok (match validate st.cwd document library with
             | .ok events => events
             | .error _ => [])
  else .ok []

/-- `documents.onDidClose` (part_000 lines 156-161): the handler sends an
empty diagnostics list for the closed document, synchronously, consulting
nothing else in the server state. -/
def onDidClose (_st : ServerState) (uri : String) : List ServerEvent :=
  [.publishDiagnostics uri []]

/-- The `documents.all().forEach(validateDocument)` sweep: each document
is validated independently; a rejected validation surfaces nothing (its
promise is dropped). -/
def revalidateAll (st : ServerState) (documents : List TextDocument) : List ServerEvent :=
  documents.flatMap fun document =>
    match validateDocument st document with
    | .ok events => events
    | .error _ => []

/-- `connection.onDidChangeConfiguration` (part_000 lines 149-154): store
`settings.languageServerExample.showWarning || false` and revalidate all
open documents. The delivered setting is an `Option Bool` (`none` models
an absent property, which `|| false` turns into `false`). -/
def onDidChangeConfiguration (st : ServerState) (setting : Option Bool) :
    ServerState × List ServerEvent :=
  let st₂ := { st with showWarning := setting.getD false }
  (st₂, revalidateAll st₂ st₂.openDocs)

/-- The resolution environment of one `onDidOpen` event: the outcome of
the `Files.resolve` chain (lines 99-114) for this document, and the
dynamic loader `require` by resolved path. -/
structure ResolveEnv where
  filesResolve : Option String
  requireModule : String → CacheModule

/-- The success handler of the stored promise (part_000 lines 117-130):
reuse the handle cached under the resolved path, otherwise `require` the
module, throw when it does not export `lintText`, and cache it. -/
def loadLibrary (env : ResolveEnv) (path2Library : List (String × CacheModule)) (p : String) :
    Except JsError (CacheModule × List (String × CacheModule)) :=
  match jsGet path2Library p with
  | some library => .ok (library, path2Library)
  | none =>
      let library := env.requireModule p
      match library.lintText with
      | none => .error { message := some "The marlint library doesn't export lintText" }
      | some _ => .ok (library, (p, library) :: path2Library)

/-- The settled outcome of `document2Library[uri]` (lines 116-134): a
failed `Files.resolve` chain is turned into `null` by the rejection
handler; a successful one runs `loadLibrary`, whose throw rejects the
stored promise. -/
def resolutionOutcome (env : ResolveEnv) (path2Library : List (String × CacheModule)) :
    LibOutcome × List (String × CacheModule) :=
  match env.filesResolve with
  | none => (.nullLib, path2Library)
  | some p =>
      match loadLibrary env path2Library p with
      | .ok (library, p2l) => (.lib library, p2l)
      | .error e => (.rejected e, path2Library)

/-- The bookkeeping of `documents.onDidOpen` (part_000 lines 92-138) that
decides whether a resolution starts: `document2Library` maps each URI to
the identity of the promise stored for it (entries are never removed),
`resolveAttempts` counts the `Files.resolve` chains started, and
`nextPromiseId` names the next stored promise. -/
structure OpenState where
  document2Library : List (String × Nat)
  resolveAttempts : Nat
  nextPromiseId : Nat
deriving DecidableEq, Repr

/-- `documents.onDidOpen`: if a promise is already stored for the URI
(settled or not), nothing happens; otherwise a resolution chain starts
and its promise is stored synchronously, before any asynchronous step of
the chain runs. -/
def onDidOpen (st : OpenState) (docUri : String) : OpenState :=
  match jsGet st.document2Library docUri with
  | some _ => st
  | none =>
      { document2Library := (docUri, st.nextPromiseId) :: st.document2Library
        resolveAttempts := st.resolveAttempts + 1
        nextPromiseId := st.nextPromiseId + 1 }

end CacheServer

/-! The class-based server variant (src/unnamed/part_001): a `Linter`
class holding the workspace root, the loaded module and an options
record, resolving the module through `Files.resolveModule` and the
workspace `Package`. -/

namespace Linter

/-- A loaded marlint module as `Files.resolveModule` delivers it:
`lintText` is `none` when the module does not export that function. -/
structure Marlint where
  lintText : Option (String → LintOptions → Except JsError ESLintReport)

/-- The `Linter` instance fields the validation path reads:
`workspaceRoot` (set by `onInitialize`), `lib` (set only inside the
success handler of `Files.resolveModule`), and `options`, which is
declared (`private options: any`) but never assigned anywhere in the
program, so at run time it is always `none`. -/
structure State where
  workspaceRoot : String
  lib : Option Marlint
  options : Option LintOptions

/-- The environment one resolution runs against: the workspace manifest
(consulted through `Package.isDependency`) and the outcome of
`Files.resolveModule(this.workspaceRoot, "marlint")` — `some` the module
it resolves to, `none` when it rejects. -/
structure Env where
  manifest : ManifestFile
  filesResolveModule : Option Marlint

/-- A `ResponseError<InitializeError>` as `resolveModule` builds it. -/
structure RespError where
  code : Nat
  message : String
  retry : Bool
deriving DecidableEq, Repr

/-- A promise rejection inside the Linter: a thrown `ResponseError`, or a
plain JavaScript error (a manifest read error rethrown by
`Package.isDependency`, or a `TypeError` raised in a handler). -/
inductive Rejection
  | resp (e : RespError)
  | js (e : JsError)
deriving DecidableEq, Repr

/-- What the promise returned by `resolveModule` resolves with when it
does not reject: the `InitializeResult` capabilities record, a
`ResponseError` that was returned (not thrown) by the success handler, or
`undefined` (the failure handler for an undeclared module falls off its
end). -/
inductive ResolveValue
  | initResult
  | respError (e : RespError)
  | undef
deriving DecidableEq, Repr

/-- A synthetic `TypeError` value. -/
def jsTypeError (msg : String) : JsError := { message := some msg }

/-- `Linter.resolveModule` (part_001 lines 69-109), viewed at the point
its promise settles: with `this.lib` already set it resolves with the
capabilities record; otherwise `Files.resolveModule` either delivers the
module — rejected as a returned non-retryable `ResponseError` when it
lacks `lintText`, stored in `this.lib` and resolved otherwise — or fails,
in which case a declared dependency raises a retryable `ResponseError`,
an undeclared one resolves with `undefined`, and a manifest read error
thrown by `isDependency` rejects the promise. The first component is the
value of `this.lib` after the promise settles. -/
def resolveModule (env : Env) (lib : Option Marlint) :
    Option Marlint × Except Rejection ResolveValue :=
  match lib with
  | some _ => (lib, .ok .initResult)
  | none =>
      match env.filesResolveModule with
      | some marlint =>
          match marlint.lintText with
          | none =>
              (none, .ok (.respError
                { code := 99
                  message := "Marlint doesn't export a lintText method."
                  retry := false }))
          | some _ => (some marlint, .ok .initResult)
      | none =>
          match isDependency env.manifest "marlint" with
          | .ok true =>
              (none, .error (.resp
                { code := 99
                  message := "Failed to load marlint. Make sure marlint is installed in your workspace folder and then press Retry."
                  retry := true }))
          | .ok false => (none, .ok .undef)
          | .error e => (none, .error (.js e))

/-- How one `Linter.validate` call ends: `isDependency` threw
synchronously before any promise existed, the returned promise rejected,
or it resolved after publishing the listed events. -/
inductive ValidateResult
  | syncThrow (e : JsError)
  | rejected (r : Rejection)
  | done (events : List ServerEvent)

/-- The continuation `Linter.validate` attaches to `resolveModule()`
(part_001 lines 143-182), run once that promise resolves; `st` is the
instance as the continuation sees it (`lib` holds what resolution left in
`this.lib`). Notes kept from the source: `Files.uriToFilePath` yields
`undefined`, never `null`, so the `fsPath === null` guard (line 148)
never fires; `this.options` is never assigned anywhere, so
`options.cwd = ...` on it throws a `TypeError` whenever this continuation
runs, making the lint-and-publish tail dead code in this variant — it is
still embedded as written. -/
def validateCont (st : State) (document : TextDocument) : ValidateResult :=
  match st.options with
  | none => .rejected (.js (jsTypeError "Cannot set property cwd of undefined"))
  | some opts =>
      let options : LintOptions :=
        { opts with cwd := st.workspaceRoot, filename := document.fsPath }
      match st.lib with
      | none => .rejected (.js (jsTypeError "this.lib is undefined"))
      | some library =>
          match library.lintText with
          | none => .rejected (.js (jsTypeError "this.lib.lintText is not a function"))
          | some lint =>
              match lint document.content options with
              | .error e => .rejected (.js e)
              | .ok report =>
                  match report.results with
                  | [] => .rejected (.js (jsTypeError "Cannot read messages of undefined"))
                  | r :: _ =>
                      .done [.publishDiagnostics document.uri
                        (r.messages.map problemToDiagnostic)]

/-- `Linter.validate` (part_001 lines 137-183): an undeclared dependency
resolves silently (a manifest read error in that check throws
synchronously); otherwise the promise of `resolveModule()` either rejects
— propagated — or resolves, after which `validateCont` runs with
`this.lib` as resolution left it. -/
def validate (st : State) (env : Env) (document : TextDocument) :
    State × ValidateResult :=
  match isDependency env.manifest "marlint" with
  | .error e => (st, .syncThrow e)
  | .ok false => (st, .done [])
  | .ok true =>
      let r := resolveModule env st.lib
      ({ st with lib := r.1 },
        match r.2 with
        | .error rej => .rejected rej
        | .ok _ => validateCont { st with lib := r.1 } document)

/-- The `err.message` property of a rejection value. -/
def rejectionMessage : Rejection → Option String
  | .resp e => some e.message
  | .js e => e.message

/-- `Linter.getMessage` (part_001 lines 185-193): the error message when
it is a string, a fallback naming the file otherwise (interpolating an
undefined path prints the text undefined). -/
def getMessage (err : Rejection) (document : TextDocument) : String :=
  match rejectionMessage err with
  | some m => m
  | none =>
      "An unknown error occurred while validating file: " ++
        (match document.fsPath with
         | some p => p
         | none => "undefined")

/-- `Linter.validateSingle` (part_001 lines 128-135): a rejected
validation surfaces one `showErrorMessage` with `getMessage`; a
synchronous throw escapes past the handler pair. -/
def validateSingle (st : State) (env : Env) (document : TextDocument) :
    State × Except JsError (List ServerEvent) :=
  match validate st env document with
  | (st₂, .syncThrow e) => (st₂, .error e)
  | (st₂, .rejected r) => (st₂, .ok [.showErrorMessage (getMessage r document)])
  | (st₂, .done events) => (st₂, .ok events)

/-- `Linter.onDidClose` handler (part_001 lines 43-48): identical to the
other variant, it sends an empty diagnostics list for the closed
document, consulting nothing else. -/
def onDidClose (_st : State) (uri : String) : List ServerEvent :=
  [.publishDiagnostics uri []]

/-- `ErrorMessageTracker.add`: the tracker keys its store by the message
text, so adding a message already seen changes nothing visible. -/
def trackerAdd (messages : List String) (m : String) : List String :=
  if m ∈ messages then messages else messages ++ [m]

/-- The distinct messages the tracker sends, in first-occurrence order. -/
def trackerMessages (messages : List String) : List String :=
  messages.foldl trackerAdd []

/-- The per-document results of `documents.map(d => this.validate(d))` in
`validateMany`: `this.lib` is written only inside a promise handler,
which runs after the whole synchronous `map` pass, so every call observes
the same initial state. -/
def validateResults (st : State) (env : Env) (documents : List TextDocument) :
    List (TextDocument × ValidateResult) :=
  documents.map fun document => (document, (validate st env document).2)

/-- The events published by the validations that resolved. -/
def doneEvents (results : List (TextDocument × ValidateResult)) : List ServerEvent :=
  results.flatMap fun r =>
    match r.2 with
    | .done events => events
    | _ => []

/-- The messages of the validations that rejected, as `validateMany`
hands them to the tracker. -/
def failureMessages (results : List (TextDocument × ValidateResult)) : List String :=
  results.filterMap fun r =>
    match r.2 with
    | .rejected rej => some (getMessage rej r.1)
    | _ => none

/-- The first synchronous throw in the batch, which escapes the
`documents.map` pass. -/
def firstSyncThrow : List (TextDocument × ValidateResult) → Option JsError
  | [] => none
  | (_, .syncThrow e) :: _ => some e
  | _ :: rest => firstSyncThrow rest

/-- How `Linter.validateMany` ends. -/
inductive BatchResult
  | thrown (e : JsError)
  | completed (events : List ServerEvent)

/-- `Linter.validateMany` (part_001 lines 111-126): every document is
validated; each rejection is added to an `ErrorMessageTracker` instead of
propagating, and after `Promise.all` settles the tracker surfaces each
distinct message once. A synchronous throw (a manifest read error)
escapes the `map` pass and aborts the batch. -/
def validateMany (st : State) (env : Env) (documents : List TextDocument) : BatchResult :=
  let results := validateResults st env documents
  match firstSyncThrow results with
  | some e => .thrown e
  | none =>
      .completed (doneEvents results ++
        (trackerMessages (failureMessages results)).map .showErrorMessage)

/-- The accounting view of `resolveModule` relevant to concurrency
(part_001 lines 79-83 and 93): `lib` records whether `this.lib` has been
assigned, `loadAttempts` counts the `Files.resolveModule` invocations.
A call finding `this.lib` unset starts a load; the assignment to
`this.lib` happens only in the promise handler, i.e. after the attempt
completes, never at call time. -/
structure ResolveAccounting where
  lib : Option Unit
  loadAttempts : Nat
deriving DecidableEq, Repr

/-- One `resolveModule()` call as observed at call time. -/
def resolveModuleStart (st : ResolveAccounting) : ResolveAccounting :=
  match st.lib with
  | some _ => st
  | none => { st with loadAttempts := st.loadAttempts + 1 }

/-- The completion of a successful attempt: the handler assigns
`this.lib` (part_001 line 93). -/
def resolveModuleComplete (st : ResolveAccounting) : ResolveAccounting :=
  { st with lib := some () }

end Linter

/-! Concrete inputs and small observation helpers used by the theorems
below. -/

/-- The messages of the `showErrorMessage` events in an event list. -/
def shownMessages (events : List ServerEvent) : List String :=
  events.filterMap fun ev =>
    match ev with
    | .showErrorMessage m => some m
    | _ => none

/-- A module whose lint call returns a fixed report. -/
def constReportModule (report : ESLintReport) : CacheServer.CacheModule :=
  { lintText := some fun _ _ => .ok report }

/-- A module whose lint call throws. -/
def throwingModule (e : JsError) : CacheServer.CacheModule :=
  { lintText := some fun _ _ => .error e }

/-- The report message of the worked example: severity 2, line 3,
column 5, rule no-undef. -/
def exampleProblem : ESLintProblem :=
  { line := 3, column := 5, severity := 2, ruleId := some "no-undef",
    message := "x is not defined" }

/-- A fresh open-event bookkeeping state: nothing cached, no resolution
started. -/
def openState0 : CacheServer.OpenState :=
  { document2Library := [], resolveAttempts := 0, nextPromiseId := 0 }

/-- A freshly initialized Linter state for the workspace /ws: no module
loaded, options never assigned. -/
def linterState0 : Linter.State :=
  { workspaceRoot := "/ws", lib := none, options := none }

/-- An environment where marlint is declared under devDependencies but
`Files.resolveModule` fails (the module is not installed). -/
def envDeclaredAbsent : Linter.Env :=
  { manifest := .wellFormed [] [("marlint", "^1.0.0")], filesResolveModule := none }

/-- A sample open file document. -/
def docA : TextDocument :=
  { uri := "file:///ws/a.js", content := "var x = 1", fsPath := some "/ws/a.js" }

/-- A second sample open file document. -/
def docB : TextDocument :=
  { uri := "file:///ws/b.js", content := "var y = 2", fsPath := some "/ws/b.js" }

/-! Helper lemmas. -/

theorem truthyStr_eq_true_iff (o : Option String) :
    truthyStr o = true ↔ ∃ v, o = some v ∧ v ≠ "" := by
  cases o <;> simp [truthyStr]

/-! C5. -/

/-- C5: for every workspace root whose manifest file does not exist,
`isDependency` returns false for every name and never throws; when the
manifest file exists but is malformed, or any other read error occurs,
`isDependency` propagates the error to the caller. -/
theorem C5_isDependency_missing_vs_error :
    (∀ name, isDependency .absent name = .ok false) ∧
    (∀ name, isDependency .malformed name = .error jsonParseError) ∧
    (∀ name code, code ≠ "ENOENT" →
      isDependency (.ioError code) name = .error { code := some code }) := by
  refine ⟨fun name => rfl, fun name => rfl, fun name code h => ?_⟩
  simp [isDependency, loadJsonFileSync, h]

/-- C5 witness: the theorem applied at a missing manifest, an unparsable
manifest, and a permission error. -/
theorem C5_isDependency_missing_vs_error_witness :
    ("EACCES" ≠ "ENOENT" ∧
      isDependency (.ioError "EACCES") "marlint" = .error { code := some "EACCES" }) ∧
    isDependency .absent "marlint" = .ok false ∧
    isDependency .malformed "marlint" = .error jsonParseError :=
  ⟨⟨by decide, C5_isDependency_missing_vs_error.2.2 "marlint" "EACCES" (by decide)⟩,
    C5_isDependency_missing_vs_error.1 "marlint",
    C5_isDependency_missing_vs_error.2.1 "marlint"⟩

/-! C6. -/

/-- C6 counterexample: the well-formed manifest declaring marlint in its
dependencies section with the (valid) empty version specifier has the
name as a key, yet `isDependency` returns false, because the source
computes the JavaScript truthiness of the version value
(`Boolean(deps[name] || devDeps[name])`) and the empty string is falsy. -/
theorem C6_key_iff_counterexample :
    (jsGet [("marlint", "")] "marlint").isSome = true ∧
    isDependency (.wellFormed [("marlint", "")] []) "marlint" = .ok false :=
  ⟨rfl, rfl⟩

/-- C6 amended: for every readable well-formed manifest, `isDependency`
returns true iff the name appears as a key with a truthy (non-empty)
version value in the dependencies section or the devDependencies section;
in particular a name declared only under devDependencies with a non-empty
version yields true. -/
theorem C6_truthy_key_iff (dependencies devDependencies : List (String × String))
    (name : String) :
    (isDependency (.wellFormed dependencies devDependencies) name = .ok true ↔
      (∃ v, jsGet dependencies name = some v ∧ v ≠ "") ∨
      (∃ v, jsGet devDependencies name = some v ∧ v ≠ "")) ∧
    (∀ v, jsGet devDependencies name = some v → v ≠ "" →
      isDependency (.wellFormed dependencies devDependencies) name = .ok true) := by
  have hiff : isDependency (.wellFormed dependencies devDependencies) name = .ok true ↔
      (∃ v, jsGet dependencies name = some v ∧ v ≠ "") ∨
      (∃ v, jsGet devDependencies name = some v ∧ v ≠ "") := by
    simp [isDependency, loadJsonFileSync, truthyStr_eq_true_iff]
  exact ⟨hiff, fun v hv hne => hiff.mpr (Or.inr ⟨v, hv, hne⟩)⟩

/-- C6 witness: the amended theorem applied to a manifest declaring
marlint only under devDependencies with a non-empty version. -/
theorem C6_truthy_key_iff_witness :
    (jsGet [("marlint", "^1.0.0")] "marlint" = some "^1.0.0" ∧ "^1.0.0" ≠ "") ∧
    isDependency (.wellFormed [] [("marlint", "^1.0.0")]) "marlint" = .ok true :=
  ⟨⟨by decide, by decide⟩,
    (C6_truthy_key_iff [] [("marlint", "^1.0.0")] "marlint").2 "^1.0.0"
      (by decide) (by decide)⟩

/-! C7. -/

/-- C7: for every lint-report message, the published diagnostic has
severity Error exactly when the message's severity equals 2 and Warning
otherwise, has the ruleId appended in parentheses to the message text
when ruleId is present, has source Marlint and code equal to ruleId, and
has a single-point range at (line - 1, column - 1); the document-cache
variant's `validate` publishes exactly this mapping of `results[0]`, and
the worked example (severity 2, line 3, column 5, rule no-undef) yields
severity Error, a message ending in the parenthesized rule id, and range
start (2, 4). -/
theorem C7_diagnostic_mapping :
    (∀ p : ESLintProblem,
      ((problemToDiagnostic p).severity = .error ↔ p.severity = 2) ∧
      ((problemToDiagnostic p).severity = .warning ↔ p.severity ≠ 2) ∧
      (problemToDiagnostic p).message =
        (match p.ruleId with
         | some rid => p.message ++ " (" ++ rid ++ ")"
         | none => p.message) ∧
      (problemToDiagnostic p).code = p.ruleId ∧
      (problemToDiagnostic p).source = "Marlint" ∧
      (problemToDiagnostic p).range =
        { start := { line := p.line - 1, character := p.column - 1 }
          stop := { line := p.line - 1, character := p.column - 1 } }) ∧
    (∀ (cwd : String) (document : TextDocument) (report : ESLintReport),
      CacheServer.validate cwd document (constReportModule report) =
        match report.results with
        | [] => .error { message := some "Cannot read messages of undefined" }
        | r :: _ =>
            .ok [.publishDiagnostics document.uri (r.messages.map problemToDiagnostic)]) ∧
    problemToDiagnostic exampleProblem =
      { message := "x is not defined (no-undef)"
        severity := .error
        code := some "no-undef"
        source := "Marlint"
        range := { start := { line := 2, character := 4 }
                   stop := { line := 2, character := 4 } } } := by
  refine ⟨fun p => ⟨?_, ?_, rfl, rfl, rfl, rfl⟩, fun cwd document report => rfl, rfl⟩
  · simp only [problemToDiagnostic]
    split <;> simp_all
  · simp only [problemToDiagnostic]
    split <;> simp_all

/-! C1. -/

/-- C1 counterexample: in the class-based variant, `resolveModule` skips
a new load only when `this.lib` is already set, and `this.lib` is
assigned only in the promise handler after an attempt completes; so two
calls made concurrently — the second before the first completes, with
`this.lib` still unset — perform two `Files.resolveModule` load attempts,
not exactly one as the claim states. -/
theorem C1_concurrent_double_load_counterexample :
    (Linter.resolveModuleStart (Linter.resolveModuleStart
      { lib := none, loadAttempts := 0 })).loadAttempts = 2 ∧ (2 : Nat) ≠ 1 := by
  decide

/-- C1 amended: resolution is memoized per document URI in the
document-cache variant — the stored promise is cached synchronously, so a
second open of the same document (in particular one arriving before the
first resolution completes) starts no new resolution attempt and both
opens consult the same stored promise, hence receive the same eventual
outcome; in the class-based variant the `this.lib` guard prevents a new
load attempt only once the first attempt has completed. -/
theorem C1_per_document_memoization (st : CacheServer.OpenState) (uri : String)
    (hnew : jsGet st.document2Library uri = none) :
    CacheServer.onDidOpen (CacheServer.onDidOpen st uri) uri =
      CacheServer.onDidOpen st uri ∧
    (CacheServer.onDidOpen st uri).resolveAttempts = st.resolveAttempts + 1 ∧
    jsGet (CacheServer.onDidOpen st uri).document2Library uri = some st.nextPromiseId ∧
    jsGet (CacheServer.onDidOpen (CacheServer.onDidOpen st uri) uri).document2Library uri =
      some st.nextPromiseId ∧
    (∀ acc : Linter.ResolveAccounting,
      Linter.resolveModuleStart (Linter.resolveModuleComplete acc) =
        Linter.resolveModuleComplete acc) := by
  have h1 : CacheServer.onDidOpen st uri =
      { document2Library := (uri, st.nextPromiseId) :: st.document2Library
        resolveAttempts := st.resolveAttempts + 1
        nextPromiseId := st.nextPromiseId + 1 } := by
    simp [CacheServer.onDidOpen, hnew]
  have h2 : jsGet (CacheServer.onDidOpen st uri).document2Library uri =
      some st.nextPromiseId := by
    rw [h1]; simp [jsGet]
  have h3 : CacheServer.onDidOpen (CacheServer.onDidOpen st uri) uri =
      CacheServer.onDidOpen st uri := by
    rw [h1]
    simp [CacheServer.onDidOpen, jsGet]
  refine ⟨h3, by rw [h1], h2, by rw [h3]; exact h2, fun acc => rfl⟩

/-- C1 witness: the amended theorem applied to a fresh server and one
document URI. -/
theorem C1_per_document_memoization_witness :
    jsGet openState0.document2Library "file:///ws/a.js" = none ∧
    (CacheServer.onDidOpen (CacheServer.onDidOpen openState0 "file:///ws/a.js")
        "file:///ws/a.js" =
      CacheServer.onDidOpen openState0 "file:///ws/a.js" ∧
    (CacheServer.onDidOpen openState0 "file:///ws/a.js").resolveAttempts =
      openState0.resolveAttempts + 1 ∧
    jsGet (CacheServer.onDidOpen openState0 "file:///ws/a.js").document2Library
        "file:///ws/a.js" = some openState0.nextPromiseId ∧
    jsGet (CacheServer.onDidOpen (CacheServer.onDidOpen openState0 "file:///ws/a.js")
        "file:///ws/a.js").document2Library "file:///ws/a.js" =
      some openState0.nextPromiseId ∧
    (∀ acc : Linter.ResolveAccounting,
      Linter.resolveModuleStart (Linter.resolveModuleComplete acc) =
        Linter.resolveModuleComplete acc)) :=
  ⟨rfl, C1_per_document_memoization openState0 "file:///ws/a.js" rfl⟩

/-! C2. -/

/-- C2: when the module cannot be located (the resolution fails) and the
workspace manifest declares it as a dependency, resolution raises a
`ResponseError` with `retry := true` whose message instructs the user to
install the module and press Retry, and validating a document surfaces
exactly one error message — that message — through `showErrorMessage`. -/
theorem C2_absent_declared_retryable (st : Linter.State) (env : Linter.Env)
    (document : TextDocument)
    (hlib : st.lib = none)
    (habsent : env.filesResolveModule = none)
    (hdecl : isDependency env.manifest "marlint" = .ok true) :
    Linter.resolveModule env st.lib =
      (none, .error (.resp
        { code := 99
          message := "Failed to load marlint. Make sure marlint is installed in your workspace folder and then press Retry."
          retry := true })) ∧
    Linter.validateSingle st env document =
      (st, .ok [.showErrorMessage
        "Failed to load marlint. Make sure marlint is installed in your workspace folder and then press Retry."]) := by
  have hst : ({ st with lib := none } : Linter.State) = st := by rw [← hlib]
  have hres : Linter.resolveModule env st.lib =
      (none, .error (.resp
        { code := 99
          message := "Failed to load marlint. Make sure marlint is installed in your workspace folder and then press Retry."
          retry := true })) := by
    rw [hlib]
    simp [Linter.resolveModule, habsent, hdecl]
  refine ⟨hres, ?_⟩
  simp [Linter.validateSingle, Linter.validate, hdecl, hres, hst,
    Linter.getMessage, Linter.rejectionMessage]

/-- C2 witness: the theorem applied to a fresh Linter in a workspace
declaring marlint whose resolution fails. -/
theorem C2_absent_declared_retryable_witness :
    (linterState0.lib = none ∧
      envDeclaredAbsent.filesResolveModule = none ∧
      isDependency envDeclaredAbsent.manifest "marlint" = .ok true) ∧
    (Linter.resolveModule envDeclaredAbsent linterState0.lib =
      (none, .error (.resp
        { code := 99
          message := "Failed to load marlint. Make sure marlint is installed in your workspace folder and then press Retry."
          retry := true })) ∧
    Linter.validateSingle linterState0 envDeclaredAbsent docA =
      (linterState0, .ok [.showErrorMessage
        "Failed to load marlint. Make sure marlint is installed in your workspace folder and then press Retry."])) :=
  ⟨⟨rfl, rfl, rfl⟩, C2_absent_declared_retryable linterState0 envDeclaredAbsent docA rfl rfl rfl⟩

/-! C3. -/

/-- C3: when the module is found and loaded but does not expose
`lintText`, resolution ends in the fatal `ResponseError` with
`retry := false`, whatever the manifest says (the dependency check is
never consulted on this path): in the class-based variant the promise
settles with that non-retryable error, and in the document-cache variant
the load check throws, rejecting the stored promise, again regardless of
any dependency declaration. -/
theorem C3_missing_lintText_nonretryable (env : Linter.Env) (marlint : Linter.Marlint)
    (hres : env.filesResolveModule = some marlint)
    (hno : marlint.lintText = none) :
    Linter.resolveModule env none =
      (none, .ok (.respError
        { code := 99
          message := "Marlint doesn't export a lintText method."
          retry := false })) ∧
    (∀ (cenv : CacheServer.ResolveEnv) (p2l : List (String × CacheServer.CacheModule))
        (p : String),
      cenv.filesResolve = some p →
      jsGet p2l p = none →
      (cenv.requireModule p).lintText = none →
      CacheServer.resolutionOutcome cenv p2l =
        (.rejected { message := some "The marlint library doesn't export lintText" }, p2l)) := by
  constructor
  · simp [Linter.resolveModule, hres, hno]
  · intro cenv p2l p h1 h2 h3
    simp [CacheServer.resolutionOutcome, CacheServer.loadLibrary, h1, h2, h3]

/-- C3 witness: the theorem applied to a loaded module without a
`lintText` export, in a workspace that does declare marlint (showing the
declaration does not change the outcome). -/
theorem C3_missing_lintText_nonretryable_witness :
    (({ manifest := .wellFormed [("marlint", "^1.0.0")] []
        filesResolveModule := some { lintText := none } } : Linter.Env).filesResolveModule =
          some ({ lintText := none } : Linter.Marlint) ∧
      ({ lintText := none } : Linter.Marlint).lintText = none) ∧
    (Linter.resolveModule
        { manifest := .wellFormed [("marlint", "^1.0.0")] []
          filesResolveModule := some { lintText := none } } none =
      (none, .ok (.respError
        { code := 99
          message := "Marlint doesn't export a lintText method."
          retry := false })) ∧
    (∀ (cenv : CacheServer.ResolveEnv) (p2l : List (String × CacheServer.CacheModule))
        (p : String),
      cenv.filesResolve = some p →
      jsGet p2l p = none →
      (cenv.requireModule p).lintText = none →
      CacheServer.resolutionOutcome cenv p2l =
        (.rejected { message := some "The marlint library doesn't export lintText" }, p2l))) :=
  ⟨⟨rfl, rfl⟩,
    C3_missing_lintText_nonretryable
      { manifest := .wellFormed [("marlint", "^1.0.0")] []
        filesResolveModule := some { lintText := none } }
      { lintText := none } rfl rfl⟩

/-! C4. -/

/-- C4: when the module cannot be located and the manifest does not
declare it, validating any document is a silent no-op: in the class-based
variant `validate` resolves with no events and `validateSingle` publishes
no diagnostics and shows no error; in the document-cache variant the
failed resolution settles the stored promise with null, and
`validateDocument` on a null library resolves with no events. -/
theorem C4_absent_undeclared_silent (st : Linter.State) (env : Linter.Env)
    (document : TextDocument)
    (_habsent : env.filesResolveModule = none)
    (hundecl : isDependency env.manifest "marlint" = .ok false) :
    Linter.validate st env document = (st, .done []) ∧
    Linter.validateSingle st env document = (st, .ok []) ∧
    (∀ (cenv : CacheServer.ResolveEnv) (p2l : List (String × CacheServer.CacheModule)),
      cenv.filesResolve = none →
      CacheServer.resolutionOutcome cenv p2l = (.nullLib, p2l)) ∧
    (∀ (cst : CacheServer.ServerState) (doc : TextDocument),
      jsGet cst.document2Library doc.uri = some .nullLib →
      CacheServer.validateDocument cst doc = .ok []) := by
  refine ⟨?_, ?_, ?_, ?_⟩
  · simp [Linter.validate, hundecl]
  · simp [Linter.validateSingle, Linter.validate, hundecl]
  · intro cenv p2l h
    simp [CacheServer.resolutionOutcome, h]
  · intro cst doc h
    unfold CacheServer.validateDocument
    rw [h]
    split <;> rfl

/-- C4 witness: the theorem applied to a fresh Linter in a workspace with
an empty manifest and a failing resolution. -/
theorem C4_absent_undeclared_silent_witness :
    (({ manifest := .wellFormed [] [], filesResolveModule := none } :
        Linter.Env).filesResolveModule = none ∧
      isDependency (ManifestFile.wellFormed [] []) "marlint" = .ok false) ∧
    (Linter.validate linterState0
        { manifest := .wellFormed [] [], filesResolveModule := none } docA =
      (linterState0, .done []) ∧
    Linter.validateSingle linterState0
        { manifest := .wellFormed [] [], filesResolveModule := none } docA =
      (linterState0, .ok []) ∧
    (∀ (cenv : CacheServer.ResolveEnv) (p2l : List (String × CacheServer.CacheModule)),
      cenv.filesResolve = none →
      CacheServer.resolutionOutcome cenv p2l = (.nullLib, p2l)) ∧
    (∀ (cst : CacheServer.ServerState) (doc : TextDocument),
      jsGet cst.document2Library doc.uri = some .nullLib →
      CacheServer.validateDocument cst doc = .ok [])) :=
  ⟨⟨rfl, rfl⟩,
    C4_absent_undeclared_silent linterState0
      { manifest := .wellFormed [] [], filesResolveModule := none } docA rfl rfl⟩

/-! C8. -/

/-- C8: on a close notification for a document, both server variants
immediately publish an empty diagnostics list for that document's URI —
the handler emits exactly that one event — and the output is the same for
any two server states, in particular for states whose sets of in-flight
validations differ, so the clearing is independent of any validation
still pending for the document. -/
theorem C8_close_publishes_empty :
    (∀ (st : CacheServer.ServerState) (uri : String),
      CacheServer.onDidClose st uri = [.publishDiagnostics uri []]) ∧
    (∀ (st₁ st₂ : CacheServer.ServerState) (uri : String),
      CacheServer.onDidClose st₁ uri = CacheServer.onDidClose st₂ uri) ∧
    (∀ (st : Linter.State) (uri : String),
      Linter.onDidClose st uri = [.publishDiagnostics uri []]) ∧
    (∀ (st₁ st₂ : Linter.State) (uri : String),
      Linter.onDidClose st₁ uri = Linter.onDidClose st₂ uri) :=
  ⟨fun _ _ => rfl, fun _ _ _ => rfl, fun _ _ => rfl, fun _ _ _ => rfl⟩

/-! C10. -/

/-- C10: the stored `showWarning` flag never influences published
diagnostics in the document-cache variant: validating any document under
any two values of the flag yields identical output, a configuration
change stores the delivered flag, and the full revalidation it triggers
emits the same events whether the configuration delivered true or
false. -/
theorem C10_showWarning_noninterference :
    (∀ (st : CacheServer.ServerState) (b : Bool) (document : TextDocument),
      CacheServer.validateDocument { st with showWarning := b } document =
        CacheServer.validateDocument st document) ∧
    (∀ (st : CacheServer.ServerState) (setting : Option Bool),
      ((CacheServer.onDidChangeConfiguration st setting).1).showWarning =
        setting.getD false) ∧
    (∀ st : CacheServer.ServerState,
      (CacheServer.onDidChangeConfiguration st (some true)).2 =
        (CacheServer.onDidChangeConfiguration st (some false)).2) :=
  ⟨fun st b document => by cases st; rfl,
   fun st setting => by cases st; rfl,
   fun st => by cases st; rfl⟩

/-! C9 helper lemmas: the tracker keeps each distinct message once, and a
resolved validation publishes diagnostics only (so every error message in
a completed batch came through the tracker). -/

theorem trackerAdd_nodup {l : List String} (h : l.Nodup) (m : String) :
    (Linter.trackerAdd l m).Nodup := by
  unfold Linter.trackerAdd
  split
  · exact h
  · simp_all [List.nodup_append]

theorem mem_trackerAdd {l : List String} {a m : String} :
    a ∈ Linter.trackerAdd l m ↔ a ∈ l ∨ a = m := by
  unfold Linter.trackerAdd
  split
  · constructor
    · exact Or.inl
    · rintro (h | rfl)
      · exact h
      · assumption
  · simp

theorem trackerLoop_nodup (l : List String) (acc : List String) (h : acc.Nodup) :
    (l.foldl Linter.trackerAdd acc).Nodup := by
  induction l generalizing acc with
  | nil => exact h
  | cons x xs ih => exact ih _ (trackerAdd_nodup h x)

theorem mem_trackerLoop (l : List String) (acc : List String) (a : String) :
    a ∈ l.foldl Linter.trackerAdd acc ↔ a ∈ acc ∨ a ∈ l := by
  induction l generalizing acc with
  | nil => simp
  | cons x xs ih =>
      rw [List.foldl_cons, ih, mem_trackerAdd]
      constructor
      · rintro ((h | rfl) | h)
        · exact Or.inl h
        · exact Or.inr (List.mem_cons_self _ _)
        · exact Or.inr (List.mem_cons_of_mem _ h)
      · rintro (h | h)
        · exact Or.inl (Or.inl h)
        · rcases List.mem_cons.mp h with rfl | h
          · exact Or.inl (Or.inr rfl)
          · exact Or.inr h

theorem trackerMessages_nodup (l : List String) : (Linter.trackerMessages l).Nodup :=
  trackerLoop_nodup l [] List.nodup_nil

theorem mem_trackerMessages (l : List String) (a : String) :
    a ∈ Linter.trackerMessages l ↔ a ∈ l := by
  unfold Linter.trackerMessages
  rw [mem_trackerLoop]
  simp

theorem validate_done_no_showError (st : Linter.State) (env : Linter.Env)
    (document : TextDocument) (events : List ServerEvent)
    (h : (Linter.validate st env document).2 = .done events) :
    ∀ m, ServerEvent.showErrorMessage m ∉ events := by
  simp only [Linter.validate, Linter.validateCont] at h
  repeat' split at h
  all_goals try (cases h)
  all_goals simp_all

theorem shownMessages_eq_nil (events : List ServerEvent)
    (h : ∀ m, ServerEvent.showErrorMessage m ∉ events) :
    shownMessages events = [] := by
  induction events with
  | nil => rfl
  | cons e es ih =>
      cases e with
      | publishDiagnostics u d =>
          simpa [shownMessages, List.filterMap_cons] using
            ih fun m hm => h m (List.mem_cons_of_mem _ hm)
      | showErrorMessage m => exact absurd (List.mem_cons_self _ _) (h m)

theorem shownMessages_doneEvents (st : Linter.State) (env : Linter.Env)
    (documents : List TextDocument) :
    shownMessages (Linter.doneEvents (Linter.validateResults st env documents)) = [] := by
  induction documents with
  | nil => rfl
  | cons d ds ih =>
      have hcons : Linter.doneEvents (Linter.validateResults st env (d :: ds)) =
          (match (Linter.validate st env d).2 with
           | .done events => events
           | _ => []) ++
            Linter.doneEvents (Linter.validateResults st env ds) := by
        simp [Linter.validateResults, Linter.doneEvents]
      rw [hcons]
      have hhead : shownMessages
          (match (Linter.validate st env d).2 with
           | .done events => events
           | _ => []) = [] := by
        rcases hr : (Linter.validate st env d).2 with e | r | events
        · rfl
        · rfl
        · exact shownMessages_eq_nil events (validate_done_no_showError st env d events hr)
      simp [shownMessages, List.filterMap_append] at *
      simp_all [shownMessages]

theorem shownMessages_map_showError (messages : List String) :
    shownMessages (messages.map ServerEvent.showErrorMessage) = messages := by
  induction messages with
  | nil => rfl
  | cons m ms ih => simp [shownMessages, List.filterMap_cons] at *; exact ih

theorem shownMessages_append (a b : List ServerEvent) :
    shownMessages (a ++ b) = shownMessages a ++ shownMessages b := by
  simp [shownMessages, List.filterMap_append]

/-! C9. -/

/-- C9: a lint call that throws on a single document is caught and
suppressed in the document-cache variant — `validate` propagates the
throw, but `validateDocument` wraps it in try/catch and resolves with no
events, so the session survives — and a batch over a document list is a
concatenation of per-document outputs, so one document's failure does not
block the others; in the class-based variant a completed `validateMany`
surfaces its rejections through the tracker: the error messages shown are
free of duplicates, and a message is shown exactly when some document's
validation rejected with it. -/
theorem C9_lint_errors_contained_and_deduplicated :
    (∀ (cwd : String) (document : TextDocument) (e : JsError),
      CacheServer.validate cwd document (throwingModule e) = .error e) ∧
    (∀ (st : CacheServer.ServerState) (document : TextDocument) (e : JsError),
      jsGet st.document2Library document.uri = some (.lib (throwingModule e)) →
      CacheServer.validateDocument st document = .ok []) ∧
    (∀ (st : CacheServer.ServerState) (documents₁ documents₂ : List TextDocument),
      CacheServer.revalidateAll st (documents₁ ++ documents₂) =
        CacheServer.revalidateAll st documents₁ ++ CacheServer.revalidateAll st documents₂) ∧
    (∀ (st : Linter.State) (env : Linter.Env) (documents : List TextDocument)
        (events : List ServerEvent),
      Linter.validateMany st env documents = .completed events →
      (shownMessages events).Nodup ∧
      ∀ m, m ∈ shownMessages events ↔
        m ∈ Linter.failureMessages (Linter.validateResults st env documents)) := by
  refine ⟨fun cwd document e => rfl, ?_, ?_, ?_⟩
  · intro st document e h
    unfold CacheServer.validateDocument
    rw [h]
    split <;> rfl
  · intro st documents₁ documents₂
    simp [CacheServer.revalidateAll]
  · intro st env documents events h
    simp only [Linter.validateMany] at h
    split at h
    · cases h
    · cases h
      rw [shownMessages_append, shownMessages_doneEvents, shownMessages_map_showError,
        List.nil_append]
      exact ⟨trackerMessages_nodup _, fun m => mem_trackerMessages _ m⟩

/-- C9 witness: the theorem applied to a stored throwing library
(suppressed with no events) and to a two-document batch whose validations
both reject with the same message, surfaced once. -/
theorem C9_lint_errors_contained_and_deduplicated_witness :
    (jsGet ({ showWarning := false, cwd := "/ws", openDocs := [docA]
              document2Library := [(docA.uri, .lib (throwingModule { message := some "boom" }))]
              pendingValidations := [] } : CacheServer.ServerState).document2Library docA.uri =
        some (.lib (throwingModule { message := some "boom" })) ∧
      CacheServer.validateDocument
        { showWarning := false, cwd := "/ws", openDocs := [docA]
          document2Library := [(docA.uri, .lib (throwingModule { message := some "boom" }))]
          pendingValidations := [] } docA = .ok []) ∧
    (Linter.validateMany linterState0 envDeclaredAbsent [docA, docB] =
      .completed [.showErrorMessage
        "Failed to load marlint. Make sure marlint is installed in your workspace folder and then press Retry."] ∧
    (shownMessages [ServerEvent.showErrorMessage
        "Failed to load marlint. Make sure marlint is installed in your workspace folder and then press Retry."]).Nodup ∧
    ∀ m, m ∈ shownMessages [ServerEvent.showErrorMessage
        "Failed to load marlint. Make sure marlint is installed in your workspace folder and then press Retry."] ↔
      m ∈ Linter.failureMessages (Linter.validateResults linterState0 envDeclaredAbsent [docA, docB])) :=
  ⟨⟨rfl,
    C9_lint_errors_contained_and_deduplicated.2.1
      { showWarning := false, cwd := "/ws", openDocs := [docA]
        document2Library := [(docA.uri, .lib (throwingModule { message := some "boom" }))]
        pendingValidations := [] } docA { message := some "boom" } rfl⟩,
   rfl,
   C9_lint_errors_contained_and_deduplicated.2.2.2 linterState0 envDeclaredAbsent
     [docA, docB] _ rfl⟩

end Marlint
